import Mathlib

/-!
Shallow embedding of `src/SphericalCoordinates.cc` (gz-math spherical
coordinate transforms).  Machine doubles are modelled as real numbers, the
C library functions `sin`, `cos`, `sqrt`, `atan`, `atan2` as their exact
real counterparts, and `std::cerr` diagnostics as a count of emitted
messages returned next to the value.
-/

namespace GzMath

noncomputable section

/-- Three-component vector of reals, modelling `gz::math::Vector3d`. -/
structure Vector3 where
  x : ℝ
  y : ℝ
  z : ℝ

theorem Vector3.ext_xyz {a b : Vector3} (hx : a.x = b.x) (hy : a.y = b.y)
    (hz : a.z = b.z) : a = b := by
  cases a; cases b; cases hx; cases hy; cases hz; rfl

instance : Add Vector3 := ⟨fun a b => ⟨a.x + b.x, a.y + b.y, a.z + b.z⟩⟩

instance : Sub Vector3 := ⟨fun a b => ⟨a.x - b.x, a.y - b.y, a.z - b.z⟩⟩

instance : Neg Vector3 := ⟨fun a => ⟨-a.x, -a.y, -a.z⟩⟩

instance : SMul ℝ Vector3 := ⟨fun r a => ⟨r * a.x, r * a.y, r * a.z⟩⟩

instance : Zero Vector3 := ⟨⟨0, 0, 0⟩⟩

@[simp] theorem Vector3.add_x (a b : Vector3) : (a + b).x = a.x + b.x := rfl

@[simp] theorem Vector3.add_y (a b : Vector3) : (a + b).y = a.y + b.y := rfl

@[simp] theorem Vector3.add_z (a b : Vector3) : (a + b).z = a.z + b.z := rfl

@[simp] theorem Vector3.sub_x (a b : Vector3) : (a - b).x = a.x - b.x := rfl

@[simp] theorem Vector3.sub_y (a b : Vector3) : (a - b).y = a.y - b.y := rfl

@[simp] theorem Vector3.sub_z (a b : Vector3) : (a - b).z = a.z - b.z := rfl

@[simp] theorem Vector3.smul_x (r : ℝ) (a : Vector3) : (r • a).x = r * a.x := rfl

@[simp] theorem Vector3.smul_y (r : ℝ) (a : Vector3) : (r • a).y = r * a.y := rfl

@[simp] theorem Vector3.smul_z (r : ℝ) (a : Vector3) : (r • a).z = r * a.z := rfl

@[simp] theorem Vector3.zero_x : (0 : Vector3).x = 0 := rfl

@[simp] theorem Vector3.zero_y : (0 : Vector3).y = 0 := rfl

@[simp] theorem Vector3.zero_z : (0 : Vector3).z = 0 := rfl

@[simp] theorem Vector3.mk_x (a b c : ℝ) : (Vector3.mk a b c).x = a := rfl

@[simp] theorem Vector3.mk_y (a b c : ℝ) : (Vector3.mk a b c).y = b := rfl

@[simp] theorem Vector3.mk_z (a b c : ℝ) : (Vector3.mk a b c).z = c := rfl

/-- Row-major 3x3 matrix of reals, modelling `gz::math::Matrix3d`. -/
structure Matrix3 where
  m00 : ℝ
  m01 : ℝ
  m02 : ℝ
  m10 : ℝ
  m11 : ℝ
  m12 : ℝ
  m20 : ℝ
  m21 : ℝ
  m22 : ℝ

/-- Matrix-vector product, modelling `Matrix3d::operator*(Vector3d)`. -/
def Matrix3.mulVec (m : Matrix3) (v : Vector3) : Vector3 :=
  ⟨m.m00 * v.x + m.m01 * v.y + m.m02 * v.z,
   m.m10 * v.x + m.m11 * v.y + m.m12 * v.z,
   m.m20 * v.x + m.m21 * v.y + m.m22 * v.z⟩

/-- C's `atan2(y, x)`: the angle of the point `(x, y)` in `(-pi, pi]`,
with `atan2 0 0 = 0`. -/
def atan2 (y x : ℝ) : ℝ :=
  if 0 < x then Real.arctan (y / x)
  else if x < 0 then
    (if 0 ≤ y then Real.arctan (y / x) + Real.pi
     else Real.arctan (y / x) - Real.pi)
  else
    (if 0 < y then Real.pi / 2
     else if y < 0 then -(Real.pi / 2) else 0)

/-- Surface type tag.  The enum holds the single recognized variant
`EARTH_WGS84`; any other integer cast into the enum is an unrecognized
tag, modelled by `UNRECOGNIZED` with the underlying integer. -/
inductive SurfaceType where
  | EARTH_WGS84 : SurfaceType
  | UNRECOGNIZED : Int → SurfaceType
deriving DecidableEq

/-- Coordinate frame tag (`SphericalCoordinates::CoordinateType`); an
integer outside the five named variants is modelled by `UNRECOGNIZED`. -/
inductive CoordinateType where
  | SPHERICAL : CoordinateType
  | ECEF : CoordinateType
  | GLOBAL : CoordinateType
  | LOCAL : CoordinateType
  | LOCAL2 : CoordinateType
  | UNRECOGNIZED : Int → CoordinateType
deriving DecidableEq

/-- True for the five named coordinate tags. -/
def CoordinateType.recognized : CoordinateType → Bool
  | .UNRECOGNIZED _ => false
  | _ => true

/-- True for the recognized Cartesian tags (all but SPHERICAL). -/
def CoordinateType.cartesian : CoordinateType → Bool
  | .LOCAL => true
  | .LOCAL2 => true
  | .GLOBAL => true
  | .ECEF => true
  | _ => false

/-- Semi-major axis of the WGS84 spheroid (`g_EarthWGS84AxisEquatorial`). -/
def g_EarthWGS84AxisEquatorial : ℝ := 6378137.0

/-- Semi-minor axis of the WGS84 spheroid (`g_EarthWGS84AxisPolar`). -/
def g_EarthWGS84AxisPolar : ℝ := 6356752.314245

/-- WGS84 flattening parameter (`g_EarthWGS84Flattening`). -/
def g_EarthWGS84Flattening : ℝ := 1.0 / 298.257223563

/-- Fixed spherical Earth radius used by `Distance` (`g_EarthRadius`). -/
def g_EarthRadius : ℝ := 6371000.0

/-- State of a `SphericalCoordinates` object: the fields of
`SphericalCoordinatesPrivate`.  Angles are stored in radians (the `Angle`
class stores radians internally). -/
structure SphericalCoordinates where
  surfaceType : SurfaceType
  latitudeReference : ℝ
  longitudeReference : ℝ
  elevationReference : ℝ
  headingOffset : ℝ
  ellA : ℝ
  ellB : ℝ
  ellF : ℝ
  ellE : ℝ
  ellP : ℝ
  rotECEFToGlobal : Matrix3
  rotGlobalToECEF : Matrix3
  origin : Vector3
  cosHea : ℝ
  sinHea : ℝ

/-- The ECEF-to-GLOBAL rotation built by `UpdateTransformationMatrix`
from a latitude `phi` and longitude `lam`. -/
def rotECEFToGlobalOf (phi lam : ℝ) : Matrix3 :=
  ⟨-Real.sin lam, Real.cos lam, 0.0,
   -Real.cos lam * Real.sin phi, -Real.sin lam * Real.sin phi, Real.cos phi,
   Real.cos lam * Real.cos phi, Real.sin lam * Real.cos phi, Real.sin phi⟩

/-- The GLOBAL-to-ECEF rotation built by `UpdateTransformationMatrix`
from a latitude `phi` and longitude `lam`. -/
def rotGlobalToECEFOf (phi lam : ℝ) : Matrix3 :=
  ⟨-Real.sin lam, -Real.cos lam * Real.sin phi, Real.cos lam * Real.cos phi,
   Real.cos lam, -Real.sin lam * Real.sin phi, Real.sin lam * Real.cos phi,
   0, Real.cos phi, Real.sin phi⟩

/-- Heading rotation applied to a LOCAL input in stage 1 of
`PositionTransform` (and of `VelocityTransform`): the `case LOCAL`
assignments to `tmp.X`/`tmp.Y`. -/
def SphericalCoordinates.localRotate (s : SphericalCoordinates)
    (v : Vector3) : Vector3 :=
  ⟨-v.x * s.cosHea + v.y * s.sinHea, -v.x * s.sinHea - v.y * s.cosHea, v.z⟩

/-- Heading rotation applied to a LOCAL2 input in stage 1 of
`PositionTransform` (and of `VelocityTransform`): the `case LOCAL2`
assignments to `tmp.X`/`tmp.Y`. -/
def SphericalCoordinates.local2Rotate (s : SphericalCoordinates)
    (v : Vector3) : Vector3 :=
  ⟨v.x * s.cosHea + v.y * s.sinHea, -v.x * s.sinHea + v.y * s.cosHea, v.z⟩

/-- Heading rotation applied in stage 2 for both LOCAL and LOCAL2
outputs: the shared `case LOCAL: case LOCAL2:` re-rotation. -/
def SphericalCoordinates.headingRotateBack (s : SphericalCoordinates)
    (v : Vector3) : Vector3 :=
  ⟨v.x * s.cosHea - v.y * s.sinHea, v.x * s.sinHea + v.y * s.cosHea, v.z⟩

/-- Faithful model of `SphericalCoordinates::PositionTransform`.  Returns
the transformed vector together with the number of diagnostics written to
`std::cerr` (0 or 1).  Stage 1 converts the input frame to ECEF; an
unrecognized input tag returns the input at once, skipping stage 2.
Stage 2 converts ECEF to the output frame; an unrecognized output tag
returns the original input. -/
def SphericalCoordinates.PositionTransform (s : SphericalCoordinates)
    (pos : Vector3) (inC outC : CoordinateType) : Vector3 × Nat :=
  let cosLat := Real.cos pos.x
  let sinLat := Real.sin pos.x
  let cosLon := Real.cos pos.y
  let sinLon := Real.sin pos.y
  let curvature := s.ellA / Real.sqrt (1.0 - s.ellE * s.ellE * sinLat * sinLat)
  let stage1 : Option Vector3 :=
    match inC with
    | .LOCAL => some (s.origin + s.rotGlobalToECEF.mulVec (s.localRotate pos))
    | .LOCAL2 => some (s.origin + s.rotGlobalToECEF.mulVec (s.local2Rotate pos))
    | .GLOBAL => some (s.origin + s.rotGlobalToECEF.mulVec pos)
    | .SPHERICAL =>
        some ⟨(pos.z + curvature) * cosLat * cosLon,
              (pos.z + curvature) * cosLat * sinLon,
              (s.ellB * s.ellB / (s.ellA * s.ellA) * curvature + pos.z) * sinLat⟩
    | .ECEF => some pos
    | .UNRECOGNIZED _ => none
  match stage1 with
  | none => (pos, 1)
  | some tmp =>
    match outC with
    | .SPHERICAL =>
        let p := Real.sqrt (tmp.x * tmp.x + tmp.y * tmp.y)
        let theta := Real.arctan (tmp.z * s.ellA / (p * s.ellB))
        let lat := Real.arctan
          ((tmp.z + s.ellP ^ 2 * s.ellB * Real.sin theta ^ 3) /
           (p - s.ellE ^ 2 * s.ellA * Real.cos theta ^ 3))
        let lon := atan2 tmp.y tmp.x
        let nCurvature := s.ellA / Real.sqrt (1.0 - s.ellE ^ 2 * Real.sin lat ^ 2)
        (⟨lat, lon, p / Real.cos lat - nCurvature⟩, 0)
    | .GLOBAL => (s.rotECEFToGlobal.mulVec (tmp - s.origin), 0)
    | .LOCAL => (s.headingRotateBack (s.rotECEFToGlobal.mulVec (tmp - s.origin)), 0)
    | .LOCAL2 => (s.headingRotateBack (s.rotECEFToGlobal.mulVec (tmp - s.origin)), 0)
    | .ECEF => (tmp, 0)
    | .UNRECOGNIZED _ => (pos, 1)

/-- Faithful model of `SphericalCoordinates::VelocityTransform`: same
two-stage pivot as `PositionTransform` but with no origin translation and
no curvature terms, and with an initial guard returning the input
unchanged (with no diagnostic) when either frame is SPHERICAL. -/
def SphericalCoordinates.VelocityTransform (s : SphericalCoordinates)
    (vel : Vector3) (inC outC : CoordinateType) : Vector3 × Nat :=
  if inC = .SPHERICAL ∨ outC = .SPHERICAL then (vel, 0)
  else
    let stage1 : Option Vector3 :=
      match inC with
      | .LOCAL => some (s.rotGlobalToECEF.mulVec (s.localRotate vel))
      | .LOCAL2 => some (s.rotGlobalToECEF.mulVec (s.local2Rotate vel))
      | .GLOBAL => some (s.rotGlobalToECEF.mulVec vel)
      | .ECEF => some vel
      | _ => none
    match stage1 with
    | none => (vel, 1)
    | some tmp =>
      match outC with
      | .ECEF => (tmp, 0)
      | .GLOBAL => (s.rotECEFToGlobal.mulVec tmp, 0)
      | .LOCAL => (s.headingRotateBack (s.rotECEFToGlobal.mulVec tmp), 0)
      | .LOCAL2 => (s.headingRotateBack (s.rotECEFToGlobal.mulVec tmp), 0)
      | _ => (vel, 1)

/-- Faithful model of the static `SphericalCoordinates::Distance`:
haversine distance for the fixed spherical Earth radius.  Angles are in
radians; the function reads no instance state. -/
def Distance (latA lonA latB lonB : ℝ) : ℝ :=
  let dLat := latB - latA
  let dLon := lonB - lonA
  let a := Real.sin (dLat / 2) * Real.sin (dLat / 2) +
           Real.sin (dLon / 2) * Real.sin (dLon / 2) *
           Real.cos latA * Real.cos latB
  let c := 2 * atan2 (Real.sqrt a) (Real.sqrt (1 - a))
  g_EarthRadius * c

/-- Faithful model of `SphericalCoordinates::SetSurface`: records the
tag, then for `EARTH_WGS84` assigns the five ellipse parameters; any
other tag emits one diagnostic and leaves the parameters untouched.
Returns the new state and the diagnostic count. -/
def SphericalCoordinates.SetSurface (s : SphericalCoordinates)
    (t : SurfaceType) : SphericalCoordinates × Nat :=
  let s1 := { s with surfaceType := t }
  match t with
  | .EARTH_WGS84 =>
      ({ s1 with
          ellA := g_EarthWGS84AxisEquatorial,
          ellB := g_EarthWGS84AxisPolar,
          ellF := g_EarthWGS84Flattening,
          ellE := Real.sqrt (1.0 -
            g_EarthWGS84AxisPolar ^ 2 / g_EarthWGS84AxisEquatorial ^ 2),
          ellP := Real.sqrt (
            g_EarthWGS84AxisEquatorial ^ 2 / g_EarthWGS84AxisPolar ^ 2 -
            1.0) }, 0)
  | .UNRECOGNIZED _ => (s1, 1)

/-- Faithful model of `SphericalCoordinates::UpdateTransformationMatrix`:
rebuilds both rotation matrices, the cached heading sine/cosine (of the
negated heading), and the cached ECEF origin obtained by running the
SPHERICAL-to-ECEF transform on the reference point. -/
def SphericalCoordinates.UpdateTransformationMatrix
    (s : SphericalCoordinates) : SphericalCoordinates :=
  let s1 := { s with
    rotECEFToGlobal := rotECEFToGlobalOf s.latitudeReference s.longitudeReference,
    rotGlobalToECEF := rotGlobalToECEFOf s.latitudeReference s.longitudeReference,
    cosHea := Real.cos (-s.headingOffset),
    sinHea := Real.sin (-s.headingOffset) }
  { s1 with
    origin := (s1.PositionTransform
      ⟨s.latitudeReference, s.longitudeReference, s.elevationReference⟩
      .SPHERICAL .ECEF).1 }

/-- Model of `SphericalCoordinates::SetLatitudeReference`. -/
def SphericalCoordinates.SetLatitudeReference (s : SphericalCoordinates)
    (angle : ℝ) : SphericalCoordinates :=
  SphericalCoordinates.UpdateTransformationMatrix { s with latitudeReference := angle }

/-- Model of `SphericalCoordinates::SetLongitudeReference`. -/
def SphericalCoordinates.SetLongitudeReference (s : SphericalCoordinates)
    (angle : ℝ) : SphericalCoordinates :=
  SphericalCoordinates.UpdateTransformationMatrix { s with longitudeReference := angle }

/-- Model of `SphericalCoordinates::SetElevationReference`. -/
def SphericalCoordinates.SetElevationReference (s : SphericalCoordinates)
    (elevation : ℝ) : SphericalCoordinates :=
  SphericalCoordinates.UpdateTransformationMatrix { s with elevationReference := elevation }

/-- Model of `SphericalCoordinates::SetHeadingOffset`. -/
def SphericalCoordinates.SetHeadingOffset (s : SphericalCoordinates)
    (angle : ℝ) : SphericalCoordinates :=
  SphericalCoordinates.UpdateTransformationMatrix { s with headingOffset := angle }

/-- The transform cache is consistent: the two rotation matrices, the
heading sine/cosine and the cached origin all equal their recomputation
from the current reference values and current ellipsoid parameters. -/
def cacheConsistent (s : SphericalCoordinates) : Prop :=
  s.rotECEFToGlobal = rotECEFToGlobalOf s.latitudeReference s.longitudeReference ∧
  s.rotGlobalToECEF = rotGlobalToECEFOf s.latitudeReference s.longitudeReference ∧
  s.cosHea = Real.cos (-s.headingOffset) ∧
  s.sinHea = Real.sin (-s.headingOffset) ∧
  s.origin = (s.PositionTransform
    ⟨s.latitudeReference, s.longitudeReference, s.elevationReference⟩
    .SPHERICAL .ECEF).1

theorem Vector3.add_sub_cancel_left' (o w : Vector3) : o + w - o = w := by
  refine Vector3.ext_xyz ?_ ?_ ?_ <;> simp

theorem rotE2G_mulVec_rotG2E (phi lam : ℝ) (v : Vector3) :
    (rotECEFToGlobalOf phi lam).mulVec ((rotGlobalToECEFOf phi lam).mulVec v) = v := by
  have hphi := Real.sin_sq_add_cos_sq phi
  have hlam := Real.sin_sq_add_cos_sq lam
  refine Vector3.ext_xyz ?_ ?_ ?_ <;>
    simp only [rotECEFToGlobalOf, rotGlobalToECEFOf, Matrix3.mulVec,
      Vector3.mk_x, Vector3.mk_y, Vector3.mk_z]
  · linear_combination v.x * hlam
  · linear_combination
      (v.y * Real.sin phi ^ 2 - v.z * Real.sin phi * Real.cos phi) * hlam +
      v.y * hphi
  · linear_combination
      (-v.y * Real.cos phi * Real.sin phi + v.z * Real.cos phi ^ 2) * hlam +
      v.z * hphi

theorem rotG2E_mulVec_rotE2G (phi lam : ℝ) (v : Vector3) :
    (rotGlobalToECEFOf phi lam).mulVec ((rotECEFToGlobalOf phi lam).mulVec v) = v := by
  have hphi := Real.sin_sq_add_cos_sq phi
  have hlam := Real.sin_sq_add_cos_sq lam
  refine Vector3.ext_xyz ?_ ?_ ?_ <;>
    simp only [rotECEFToGlobalOf, rotGlobalToECEFOf, Matrix3.mulVec,
      Vector3.mk_x, Vector3.mk_y, Vector3.mk_z]
  · linear_combination v.x * hlam +
      (v.x * Real.cos lam ^ 2 + v.y * Real.sin lam * Real.cos lam) * hphi
  · linear_combination v.y * hlam +
      (v.x * Real.sin lam * Real.cos lam + v.y * Real.sin lam ^ 2) * hphi
  · linear_combination v.z * hphi

theorem headingRotateBack_local2Rotate (s : SphericalCoordinates) (v : Vector3)
    (h : s.sinHea ^ 2 + s.cosHea ^ 2 = 1) :
    s.headingRotateBack (s.local2Rotate v) = v := by
  refine Vector3.ext_xyz ?_ ?_ ?_ <;>
    simp only [SphericalCoordinates.headingRotateBack,
      SphericalCoordinates.local2Rotate, Vector3.mk_x, Vector3.mk_y, Vector3.mk_z]
  · linear_combination v.x * h
  · linear_combination v.y * h

theorem local2Rotate_headingRotateBack (s : SphericalCoordinates) (v : Vector3)
    (h : s.sinHea ^ 2 + s.cosHea ^ 2 = 1) :
    s.local2Rotate (s.headingRotateBack v) = v := by
  refine Vector3.ext_xyz ?_ ?_ ?_ <;>
    simp only [SphericalCoordinates.headingRotateBack,
      SphericalCoordinates.local2Rotate, Vector3.mk_x, Vector3.mk_y, Vector3.mk_z]
  · linear_combination v.x * h
  · linear_combination v.y * h

/-- Stage 1 of `PositionTransform` for the Cartesian frame tags: conversion
of the input to ECEF (the `switch (_in)` of the source, minus the
SPHERICAL and default arms). -/
def SphericalCoordinates.toECEFCart (s : SphericalCoordinates) (p : Vector3) :
    CoordinateType → Vector3
  | .LOCAL => s.origin + s.rotGlobalToECEF.mulVec (s.localRotate p)
  | .LOCAL2 => s.origin + s.rotGlobalToECEF.mulVec (s.local2Rotate p)
  | .GLOBAL => s.origin + s.rotGlobalToECEF.mulVec p
  | _ => p

/-- Stage 2 of `PositionTransform` for the Cartesian frame tags: conversion
of an ECEF value to the output frame (the `switch (_out)` of the source,
minus the SPHERICAL and default arms). -/
def SphericalCoordinates.fromECEFCart (s : SphericalCoordinates) (q : Vector3) :
    CoordinateType → Vector3
  | .LOCAL => s.headingRotateBack (s.rotECEFToGlobal.mulVec (q - s.origin))
  | .LOCAL2 => s.headingRotateBack (s.rotECEFToGlobal.mulVec (q - s.origin))
  | .GLOBAL => s.rotECEFToGlobal.mulVec (q - s.origin)
  | _ => q

theorem PT_cart (s : SphericalCoordinates) (p : Vector3)
    (a b : CoordinateType) (ha : a.cartesian = true) (hb : b.cartesian = true) :
    s.PositionTransform p a b = (s.fromECEFCart (s.toECEFCart p a) b, 0) := by
  cases a <;> cases b <;>
    first
      | rfl
      | exact absurd ha Bool.false_ne_true
      | exact absurd hb Bool.false_ne_true

theorem sinHea_sq_add_cosHea_sq (s : SphericalCoordinates)
    (hs : cacheConsistent s) : s.sinHea ^ 2 + s.cosHea ^ 2 = 1 := by
  rw [hs.2.2.2.1, hs.2.2.1]
  exact Real.sin_sq_add_cos_sq _

theorem fromECEFCart_toECEFCart (s : SphericalCoordinates) (p : Vector3)
    (a : CoordinateType) (hs : cacheConsistent s)
    (ha : a = .LOCAL2 ∨ a = .GLOBAL ∨ a = .ECEF) :
    s.fromECEFCart (s.toECEFCart p a) a = p := by
  have hE2G := hs.1
  have hG2E := hs.2.1
  have hP := sinHea_sq_add_cosHea_sq s hs
  rcases ha with h | h | h <;> subst h <;>
    simp only [SphericalCoordinates.toECEFCart, SphericalCoordinates.fromECEFCart,
      Vector3.add_sub_cancel_left', hE2G, hG2E, rotE2G_mulVec_rotG2E]
  exact headingRotateBack_local2Rotate s p hP

theorem toECEFCart_fromECEFCart (s : SphericalCoordinates) (q : Vector3)
    (b : CoordinateType) (hs : cacheConsistent s)
    (hb : b = .LOCAL2 ∨ b = .GLOBAL ∨ b = .ECEF) :
    s.toECEFCart (s.fromECEFCart q b) b = q := by
  have hE2G := hs.1
  have hG2E := hs.2.1
  have hP := sinHea_sq_add_cosHea_sq s hs
  rcases hb with h | h | h <;> subst h <;>
    simp only [SphericalCoordinates.toECEFCart, SphericalCoordinates.fromECEFCart,
      local2Rotate_headingRotateBack s _ hP, hE2G, hG2E, rotG2E_mulVec_rotE2G] <;>
    (refine Vector3.ext_xyz ?_ ?_ ?_ <;> simp)

theorem PT_spherical_ecef (s : SphericalCoordinates) (p : Vector3) :
    s.PositionTransform p .SPHERICAL .ECEF =
      (⟨(p.z + s.ellA / Real.sqrt (1.0 - s.ellE * s.ellE * Real.sin p.x * Real.sin p.x)) *
          Real.cos p.x * Real.cos p.y,
        (p.z + s.ellA / Real.sqrt (1.0 - s.ellE * s.ellE * Real.sin p.x * Real.sin p.x)) *
          Real.cos p.x * Real.sin p.y,
        (s.ellB * s.ellB / (s.ellA * s.ellA) *
          (s.ellA / Real.sqrt (1.0 - s.ellE * s.ellE * Real.sin p.x * Real.sin p.x)) +
          p.z) * Real.sin p.x⟩, 0) := rfl

theorem cacheConsistent_updateTransformationMatrix (s : SphericalCoordinates) :
    cacheConsistent s.UpdateTransformationMatrix :=
  ⟨rfl, rfl, rfl, rfl, rfl⟩

/-- Reference-frame state produced by the default constructor
(`EARTH_WGS84` surface, zero reference point, zero heading), with all
cached values written out. -/
def scId : SphericalCoordinates where
  surfaceType := .EARTH_WGS84
  latitudeReference := 0
  longitudeReference := 0
  elevationReference := 0
  headingOffset := 0
  ellA := g_EarthWGS84AxisEquatorial
  ellB := g_EarthWGS84AxisPolar
  ellF := g_EarthWGS84Flattening
  ellE := Real.sqrt (1.0 -
    g_EarthWGS84AxisPolar ^ 2 / g_EarthWGS84AxisEquatorial ^ 2)
  ellP := Real.sqrt (
    g_EarthWGS84AxisEquatorial ^ 2 / g_EarthWGS84AxisPolar ^ 2 - 1.0)
  rotECEFToGlobal := ⟨0, 1, 0, 0, 0, 1, 1, 0, 0⟩
  rotGlobalToECEF := ⟨0, 0, 1, 1, 0, 0, 0, 1, 0⟩
  origin := ⟨g_EarthWGS84AxisEquatorial, 0, 0⟩
  cosHea := 1
  sinHea := 0

theorem cacheConsistent_scId : cacheConsistent scId := by
  have he : scId.ellE * scId.ellE * Real.sin scId.latitudeReference *
      Real.sin scId.latitudeReference = 0 := by
    simp [scId]
  refine ⟨?_, ?_, ?_, ?_, ?_⟩
  · show (⟨0, 1, 0, 0, 0, 1, 1, 0, 0⟩ : Matrix3) = rotECEFToGlobalOf 0 0
    simp [rotECEFToGlobalOf]
    norm_num
  · show (⟨0, 0, 1, 1, 0, 0, 0, 1, 0⟩ : Matrix3) = rotGlobalToECEFOf 0 0
    simp [rotGlobalToECEFOf]
  · show (1 : ℝ) = Real.cos (-0)
    simp
  · show (0 : ℝ) = Real.sin (-0)
    simp
  · rw [PT_spherical_ecef]
    refine Vector3.ext_xyz ?_ ?_ ?_ <;>
      simp [scId, g_EarthWGS84AxisEquatorial]
    all_goals norm_num

/-- ECEF point described by the spec for a SPHERICAL input
`(lat, lon, elev)`: `x = (elev+N)·cosLat·cosLon`,
`y = (elev+N)·cosLat·sinLon`, `z = ((b²/a²)·N + elev)·sinLat` with
`N = a / sqrt(1 − e²·sin²·lat)`. -/
def ecefFromSpherical_spec (s : SphericalCoordinates) (pos : Vector3) : Vector3 :=
  let N := s.ellA / Real.sqrt (1 - s.ellE ^ 2 * Real.sin pos.x ^ 2)
  ⟨(pos.z + N) * Real.cos pos.x * Real.cos pos.y,
   (pos.z + N) * Real.cos pos.x * Real.sin pos.y,
   (s.ellB ^ 2 / s.ellA ^ 2 * N + pos.z) * Real.sin pos.x⟩

/-- Geodetic point described by the spec for an ECEF input: the
closed-form Bowring conversion with planar radius `p`, parametric angle
`θ`, second eccentricity `ellP`, and curvature recomputed at the new
latitude. -/
def sphericalFromECEF_spec (s : SphericalCoordinates) (v : Vector3) : Vector3 :=
  let p := Real.sqrt (v.x ^ 2 + v.y ^ 2)
  let theta := Real.arctan (v.z * s.ellA / (p * s.ellB))
  let lat := Real.arctan
    ((v.z + s.ellP ^ 2 * s.ellB * Real.sin theta ^ 3) /
     (p - s.ellE ^ 2 * s.ellA * Real.cos theta ^ 3))
  let lon := atan2 v.y v.x
  let nCurvature := s.ellA / Real.sqrt (1 - s.ellE ^ 2 * Real.sin lat ^ 2)
  ⟨lat, lon, p / Real.cos lat - nCurvature⟩

/-- Claim C2: the SPHERICAL-to-ECEF half of `PositionTransform` computes
exactly the spec's ellipsoidal formulas, and the ECEF-to-SPHERICAL half
computes exactly the spec's closed-form Bowring conversion. -/
theorem positionTransform_spherical_matches_spec (s : SphericalCoordinates)
    (p : Vector3) :
    (s.PositionTransform p .SPHERICAL .ECEF).1 = ecefFromSpherical_spec s p ∧
    (s.PositionTransform p .ECEF .SPHERICAL).1 = sphericalFromECEF_spec s p := by
  constructor
  · rw [PT_spherical_ecef]
    simp only [ecefFromSpherical_spec]
    have h : (1.0 : ℝ) - s.ellE * s.ellE * Real.sin p.x * Real.sin p.x =
        1 - s.ellE ^ 2 * Real.sin p.x ^ 2 := by ring
    rw [h]
    exact Vector3.ext_xyz (by ring) (by ring) (by ring)
  · show (⟨_, _, _⟩ : Vector3) = _
    simp only [sphericalFromECEF_spec]
    have h : p.x * p.x + p.y * p.y = p.x ^ 2 + p.y ^ 2 := by ring
    rw [h]
    have h2 : (1.0 : ℝ) = 1 := by norm_num
    rw [h2]

/-- Claim C4 (amended): the LOCAL-to-ECEF pipeline rotates `(x, y)` by
`(-cosHea, sinHea; -sinHea, -cosHea)` and the LOCAL2-to-ECEF pipeline by
`(cosHea, sinHea; -sinHea, cosHea)`, both followed by
`origin + rotGlobalToECEF · rotated`; the LOCAL2 rotation flips the sign
of the cosine term in each of the two rotated components relative to
LOCAL (LOCAL applies `−R`, LOCAL2 its transpose), not only in the first
component. -/
theorem positionTransform_local_stage_formulas (s : SphericalCoordinates)
    (p : Vector3) :
    (s.PositionTransform p .LOCAL .ECEF).1 =
      s.origin + s.rotGlobalToECEF.mulVec
        ⟨-p.x * s.cosHea + p.y * s.sinHea, -p.x * s.sinHea - p.y * s.cosHea, p.z⟩ ∧
    (s.PositionTransform p .LOCAL2 .ECEF).1 =
      s.origin + s.rotGlobalToECEF.mulVec
        ⟨p.x * s.cosHea + p.y * s.sinHea, -p.x * s.sinHea + p.y * s.cosHea, p.z⟩ :=
  ⟨rfl, rfl⟩

/-- Claim C4, counterexample to the original final clause: at the default
reference frame (zero heading) and input `(0, 1, 0)`, the first rotated
components of the LOCAL and LOCAL2 conventions agree (both are 0), yet
the two ECEF results still differ — so LOCAL2 does not differ from LOCAL
only in the sign applied to the first rotated component. -/
theorem positionTransform_local2_not_sign_flip_cex :
    (-(0 : ℝ) * scId.cosHea + 1 * scId.sinHea =
      (0 : ℝ) * scId.cosHea + 1 * scId.sinHea) ∧
    (scId.PositionTransform ⟨0, 1, 0⟩ .LOCAL .ECEF).1 =
      ⟨g_EarthWGS84AxisEquatorial, 0, -1⟩ ∧
    (scId.PositionTransform ⟨0, 1, 0⟩ .LOCAL2 .ECEF).1 =
      ⟨g_EarthWGS84AxisEquatorial, 0, 1⟩ ∧
    (scId.PositionTransform ⟨0, 1, 0⟩ .LOCAL2 .ECEF).1 ≠
      (scId.PositionTransform ⟨0, 1, 0⟩ .LOCAL .ECEF).1 := by
  have h1 : (scId.PositionTransform ⟨0, 1, 0⟩ .LOCAL .ECEF).1 =
      ⟨g_EarthWGS84AxisEquatorial, 0, -1⟩ := by
    show scId.origin + scId.rotGlobalToECEF.mulVec (scId.localRotate ⟨0, 1, 0⟩) = _
    refine Vector3.ext_xyz ?_ ?_ ?_ <;>
      simp [scId, SphericalCoordinates.localRotate, Matrix3.mulVec]
  have h2 : (scId.PositionTransform ⟨0, 1, 0⟩ .LOCAL2 .ECEF).1 =
      ⟨g_EarthWGS84AxisEquatorial, 0, 1⟩ := by
    show scId.origin + scId.rotGlobalToECEF.mulVec (scId.local2Rotate ⟨0, 1, 0⟩) = _
    refine Vector3.ext_xyz ?_ ?_ ?_ <;>
      simp [scId, SphericalCoordinates.local2Rotate, Matrix3.mulVec]
  refine ⟨by simp [scId], h1, h2, ?_⟩
  rw [h1, h2]
  intro h
  have := congrArg Vector3.z h
  simp at this
  norm_num at this

/-- Claim C6: `VelocityTransform` is a silent no-op whenever either frame
tag is SPHERICAL — the input velocity is returned unchanged and no
diagnostic is emitted. -/
theorem velocityTransform_spherical_noop (s : SphericalCoordinates)
    (v : Vector3) (a b : CoordinateType)
    (h : a = .SPHERICAL ∨ b = .SPHERICAL) :
    s.VelocityTransform v a b = (v, 0) := by
  simp only [SphericalCoordinates.VelocityTransform, if_pos h]

/-- Claim C6, witness at a concrete input. -/
theorem velocityTransform_spherical_noop_witness :
    scId.VelocityTransform ⟨1, 2, 3⟩ .SPHERICAL .ECEF = (⟨1, 2, 3⟩, 0) :=
  velocityTransform_spherical_noop scId ⟨1, 2, 3⟩ .SPHERICAL .ECEF (Or.inl rfl)

/-- Claim C7: `SetSurface` with an unrecognized surface type emits one
diagnostic, records the new tag, and leaves all five numeric ellipsoid
parameters exactly as they were. -/
theorem setSurface_unrecognized_keeps_params (s : SphericalCoordinates)
    (n : Int) :
    (s.SetSurface (.UNRECOGNIZED n)).1.surfaceType = .UNRECOGNIZED n ∧
    (s.SetSurface (.UNRECOGNIZED n)).1.ellA = s.ellA ∧
    (s.SetSurface (.UNRECOGNIZED n)).1.ellB = s.ellB ∧
    (s.SetSurface (.UNRECOGNIZED n)).1.ellF = s.ellF ∧
    (s.SetSurface (.UNRECOGNIZED n)).1.ellE = s.ellE ∧
    (s.SetSurface (.UNRECOGNIZED n)).1.ellP = s.ellP ∧
    (s.SetSurface (.UNRECOGNIZED n)).2 = 1 :=
  ⟨rfl, rfl, rfl, rfl, rfl, rfl, rfl⟩

/-- Claim C8: an unrecognized input frame makes `PositionTransform`
return the original input with a single diagnostic, skipping stage 2
(even when the output frame is also unrecognized only one diagnostic is
emitted); a recognized input frame with an unrecognized output frame
also returns the original pre-transform input with one diagnostic. -/
theorem positionTransform_unrecognized_frames (s : SphericalCoordinates)
    (p : Vector3) (a b : CoordinateType) :
    (a.recognized = false → s.PositionTransform p a b = (p, 1)) ∧
    (a.recognized = true → b.recognized = false →
      s.PositionTransform p a b = (p, 1)) := by
  constructor
  · intro ha
    cases a
    case UNRECOGNIZED n => rfl
    all_goals simp [CoordinateType.recognized] at ha
  · intro ha hb
    cases b
    case UNRECOGNIZED n =>
      cases a
      case UNRECOGNIZED m => simp [CoordinateType.recognized] at ha
      all_goals rfl
    all_goals simp [CoordinateType.recognized] at hb

/-- Claim C8, witness: both failure paths evaluated at concrete inputs,
with one diagnostic each. -/
theorem positionTransform_unrecognized_frames_witness :
    scId.PositionTransform ⟨1, 2, 3⟩ (.UNRECOGNIZED 7) (.UNRECOGNIZED 9) =
      (⟨1, 2, 3⟩, 1) ∧
    scId.PositionTransform ⟨1, 2, 3⟩ .GLOBAL (.UNRECOGNIZED 9) =
      (⟨1, 2, 3⟩, 1) :=
  ⟨(positionTransform_unrecognized_frames scId ⟨1, 2, 3⟩
      (.UNRECOGNIZED 7) (.UNRECOGNIZED 9)).1 rfl,
   (positionTransform_unrecognized_frames scId ⟨1, 2, 3⟩
      .GLOBAL (.UNRECOGNIZED 9)).2 rfl rfl⟩

theorem atan2_nonneg (y x : ℝ) (hy : 0 ≤ y) : 0 ≤ atan2 y x := by
  unfold atan2
  by_cases h1 : 0 < x
  · rw [if_pos h1]
    have h := Real.arctan_strictMono.monotone (div_nonneg hy h1.le)
    rwa [Real.arctan_zero] at h
  · rw [if_neg h1]
    by_cases h2 : x < 0
    · rw [if_pos h2, if_pos hy]
      linarith [Real.neg_pi_div_two_lt_arctan (y / x), Real.pi_pos]
    · rw [if_neg h2]
      by_cases h4 : 0 < y
      · rw [if_pos h4]
        linarith [Real.pi_pos]
      · rw [if_neg h4, if_neg (not_lt.mpr hy)]

/-- Claim C9: `Distance` vanishes on equal points, is symmetric, is
non-negative, and is exactly the haversine formula scaled by the fixed
spherical Earth radius of 6371000 m (it reads no instance state and no
ellipsoid parameter). -/
theorem distance_properties (latA lonA latB lonB : ℝ) :
    Distance latA lonA latA lonA = 0 ∧
    Distance latA lonA latB lonB = Distance latB lonB latA lonA ∧
    0 ≤ Distance latA lonA latB lonB ∧
    Distance latA lonA latB lonB = 6371000.0 * (2 * atan2
      (Real.sqrt (Real.sin ((latB - latA) / 2) * Real.sin ((latB - latA) / 2) +
        Real.sin ((lonB - lonA) / 2) * Real.sin ((lonB - lonA) / 2) *
        Real.cos latA * Real.cos latB))
      (Real.sqrt (1 -
        (Real.sin ((latB - latA) / 2) * Real.sin ((latB - latA) / 2) +
         Real.sin ((lonB - lonA) / 2) * Real.sin ((lonB - lonA) / 2) *
         Real.cos latA * Real.cos latB)))) := by
  refine ⟨?_, ?_, ?_, rfl⟩
  · simp [Distance, atan2, Real.arctan_zero]
  · have h1 : Real.sin ((latA - latB) / 2) = -Real.sin ((latB - latA) / 2) := by
      rw [show (latA - latB) / 2 = -((latB - latA) / 2) by ring, Real.sin_neg]
    have h2 : Real.sin ((lonA - lonB) / 2) = -Real.sin ((lonB - lonA) / 2) := by
      rw [show (lonA - lonB) / 2 = -((lonB - lonA) / 2) by ring, Real.sin_neg]
    have ha : Real.sin ((latA - latB) / 2) * Real.sin ((latA - latB) / 2) +
        Real.sin ((lonA - lonB) / 2) * Real.sin ((lonA - lonB) / 2) *
        Real.cos latB * Real.cos latA =
        Real.sin ((latB - latA) / 2) * Real.sin ((latB - latA) / 2) +
        Real.sin ((lonB - lonA) / 2) * Real.sin ((lonB - lonA) / 2) *
        Real.cos latA * Real.cos latB := by
      rw [h1, h2]; ring
    simp only [Distance]
    rw [ha]
  · exact mul_nonneg (by norm_num [g_EarthRadius])
      (mul_nonneg (by norm_num) (atan2_nonneg _ _ (Real.sqrt_nonneg _)))

/-- Stage 1 of `VelocityTransform` for the Cartesian frame tags. -/
def SphericalCoordinates.toECEFVel (s : SphericalCoordinates) (v : Vector3) :
    CoordinateType → Vector3
  | .LOCAL => s.rotGlobalToECEF.mulVec (s.localRotate v)
  | .LOCAL2 => s.rotGlobalToECEF.mulVec (s.local2Rotate v)
  | .GLOBAL => s.rotGlobalToECEF.mulVec v
  | _ => v

/-- Stage 2 of `VelocityTransform` for the Cartesian frame tags. -/
def SphericalCoordinates.fromECEFVel (s : SphericalCoordinates) (q : Vector3) :
    CoordinateType → Vector3
  | .LOCAL => s.headingRotateBack (s.rotECEFToGlobal.mulVec q)
  | .LOCAL2 => s.headingRotateBack (s.rotECEFToGlobal.mulVec q)
  | .GLOBAL => s.rotECEFToGlobal.mulVec q
  | _ => q

theorem VT_cart (s : SphericalCoordinates) (v : Vector3)
    (a b : CoordinateType) (ha : a.cartesian = true) (hb : b.cartesian = true) :
    s.VelocityTransform v a b = (s.fromECEFVel (s.toECEFVel v a) b, 0) := by
  cases a <;> cases b <;>
    first
      | rfl
      | exact absurd ha Bool.false_ne_true
      | exact absurd hb Bool.false_ne_true

theorem toECEFVel_add (s : SphericalCoordinates) (u v : Vector3)
    (a : CoordinateType) :
    s.toECEFVel (u + v) a = s.toECEFVel u a + s.toECEFVel v a := by
  cases a <;>
    · refine Vector3.ext_xyz ?_ ?_ ?_ <;>
        simp [SphericalCoordinates.toECEFVel, Matrix3.mulVec,
          SphericalCoordinates.localRotate, SphericalCoordinates.local2Rotate] <;>
        ring

theorem toECEFVel_smul (s : SphericalCoordinates) (r : ℝ) (v : Vector3)
    (a : CoordinateType) :
    s.toECEFVel (r • v) a = r • s.toECEFVel v a := by
  cases a <;>
    · refine Vector3.ext_xyz ?_ ?_ ?_ <;>
        simp [SphericalCoordinates.toECEFVel, Matrix3.mulVec,
          SphericalCoordinates.localRotate, SphericalCoordinates.local2Rotate] <;>
        ring

theorem fromECEFVel_add (s : SphericalCoordinates) (u v : Vector3)
    (b : CoordinateType) :
    s.fromECEFVel (u + v) b = s.fromECEFVel u b + s.fromECEFVel v b := by
  cases b <;>
    · refine Vector3.ext_xyz ?_ ?_ ?_ <;>
        simp [SphericalCoordinates.fromECEFVel, Matrix3.mulVec,
          SphericalCoordinates.headingRotateBack] <;>
        ring

theorem fromECEFVel_smul (s : SphericalCoordinates) (r : ℝ) (v : Vector3)
    (b : CoordinateType) :
    s.fromECEFVel (r • v) b = r • s.fromECEFVel v b := by
  cases b <;>
    · refine Vector3.ext_xyz ?_ ?_ ?_ <;>
        simp [SphericalCoordinates.fromECEFVel, Matrix3.mulVec,
          SphericalCoordinates.headingRotateBack] <;>
        ring

theorem toECEFVel_zero (s : SphericalCoordinates) (a : CoordinateType) :
    s.toECEFVel 0 a = 0 := by
  cases a <;>
    · refine Vector3.ext_xyz ?_ ?_ ?_ <;>
        simp [SphericalCoordinates.toECEFVel, Matrix3.mulVec,
          SphericalCoordinates.localRotate, SphericalCoordinates.local2Rotate]

theorem fromECEFVel_zero (s : SphericalCoordinates) (b : CoordinateType) :
    s.fromECEFVel 0 b = 0 := by
  cases b <;>
    · refine Vector3.ext_xyz ?_ ?_ ?_ <;>
        simp [SphericalCoordinates.fromECEFVel, Matrix3.mulVec,
          SphericalCoordinates.headingRotateBack]

/-- Claim C10: for Cartesian frame pairs, `VelocityTransform` is linear
in the velocity — it distributes over addition, commutes with scalar
multiplication, and maps zero to zero; the cached origin offset is never
added. -/
theorem velocityTransform_linear (s : SphericalCoordinates) (u v : Vector3)
    (r : ℝ) (a b : CoordinateType)
    (ha : a.cartesian = true) (hb : b.cartesian = true) :
    (s.VelocityTransform (u + v) a b).1 =
      (s.VelocityTransform u a b).1 + (s.VelocityTransform v a b).1 ∧
    (s.VelocityTransform (r • v) a b).1 = r • (s.VelocityTransform v a b).1 ∧
    (s.VelocityTransform 0 a b).1 = 0 := by
  rw [VT_cart s (u + v) a b ha hb, VT_cart s u a b ha hb, VT_cart s v a b ha hb,
    VT_cart s (r • v) a b ha hb, VT_cart s 0 a b ha hb]
  refine ⟨?_, ?_, ?_⟩
  · rw [toECEFVel_add, fromECEFVel_add]
  · rw [toECEFVel_smul, fromECEFVel_smul]
  · rw [toECEFVel_zero, fromECEFVel_zero]

/-- Claim C10, witness: linearity at a concrete consistent state,
concrete vectors and a concrete Cartesian frame pair. -/
theorem velocityTransform_linear_witness :
    (scId.VelocityTransform ((⟨1, 2, 3⟩ : Vector3) + ⟨4, 5, 6⟩) .LOCAL .GLOBAL).1 =
      (scId.VelocityTransform ⟨1, 2, 3⟩ .LOCAL .GLOBAL).1 +
      (scId.VelocityTransform ⟨4, 5, 6⟩ .LOCAL .GLOBAL).1 ∧
    (scId.VelocityTransform ((2 : ℝ) • (⟨4, 5, 6⟩ : Vector3)) .LOCAL .GLOBAL).1 =
      (2 : ℝ) • (scId.VelocityTransform ⟨4, 5, 6⟩ .LOCAL .GLOBAL).1 ∧
    (scId.VelocityTransform 0 .LOCAL .GLOBAL).1 = 0 :=
  velocityTransform_linear scId ⟨1, 2, 3⟩ ⟨4, 5, 6⟩ 2 .LOCAL .GLOBAL rfl rfl

/-- Claim C1 (amended): with a consistent transform cache, the position
round trip `Transform(Transform(p, A, B), B, A) = p` holds exactly for
all frame pairs `A, B ∈ {LOCAL2, GLOBAL, ECEF}`.  It does not hold for
`A = LOCAL` in general: the shared stage-2 heading rotation inverts the
LOCAL2 forward convention, not LOCAL's, so a LOCAL round trip rotates
`(x, y)` by `π − 2·heading` — at zero heading `(1, 0, 0)` comes back as
`(−1, 0, 0)`; only the special headings `±π/2` happen to round-trip.
For pairs involving SPHERICAL the round trip holds only up to the
Bowring approximation error. -/
theorem positionTransform_roundtrip (s : SphericalCoordinates) (p : Vector3)
    (a b : CoordinateType) (hs : cacheConsistent s)
    (ha : a = .LOCAL2 ∨ a = .GLOBAL ∨ a = .ECEF)
    (hb : b = .LOCAL2 ∨ b = .GLOBAL ∨ b = .ECEF) :
    (s.PositionTransform (s.PositionTransform p a b).1 b a).1 = p := by
  have hca : a.cartesian = true := by rcases ha with h | h | h <;> subst h <;> rfl
  have hcb : b.cartesian = true := by rcases hb with h | h | h <;> subst h <;> rfl
  rw [PT_cart s p a b hca hcb]
  rw [PT_cart s _ b a hcb hca]
  show s.fromECEFCart (s.toECEFCart (s.fromECEFCart (s.toECEFCart p a) b) b) a = p
  rw [toECEFCart_fromECEFCart s _ b hs hb, fromECEFCart_toECEFCart s p a hs ha]

/-- Claim C1, witness: a concrete LOCAL2/GLOBAL round trip at the default
reference frame. -/
theorem positionTransform_roundtrip_witness :
    (scId.PositionTransform
      (scId.PositionTransform ⟨1, 2, 3⟩ .LOCAL2 .GLOBAL).1 .GLOBAL .LOCAL2).1 =
      ⟨1, 2, 3⟩ :=
  positionTransform_roundtrip scId ⟨1, 2, 3⟩ .LOCAL2 .GLOBAL cacheConsistent_scId
    (Or.inl rfl) (Or.inr (Or.inl rfl))

/-- Claim C1, counterexample to the original claim: at the default
reference frame (zero heading offset), transforming `(1, 0, 0)` from
LOCAL to ECEF and back to LOCAL yields `(-1, 0, 0)`, which misses the
input by 2 — far beyond a 1e-6 relative tolerance. -/
theorem positionTransform_roundtrip_local_cex :
    (scId.PositionTransform
      (scId.PositionTransform ⟨1, 0, 0⟩ .LOCAL .ECEF).1 .ECEF .LOCAL).1 =
      ⟨-1, 0, 0⟩ ∧
    ¬ |((scId.PositionTransform
      (scId.PositionTransform ⟨1, 0, 0⟩ .LOCAL .ECEF).1 .ECEF .LOCAL).1).x -
      (1 : ℝ)| ≤ 1e-6 * |(1 : ℝ)| := by
  have h : (scId.PositionTransform
      (scId.PositionTransform ⟨1, 0, 0⟩ .LOCAL .ECEF).1 .ECEF .LOCAL).1 =
      ⟨-1, 0, 0⟩ := by
    show scId.headingRotateBack (scId.rotECEFToGlobal.mulVec
      ((scId.origin + scId.rotGlobalToECEF.mulVec (scId.localRotate ⟨1, 0, 0⟩)) -
        scId.origin)) = _
    refine Vector3.ext_xyz ?_ ?_ ?_ <;>
      simp [scId, SphericalCoordinates.headingRotateBack,
        SphericalCoordinates.localRotate, Matrix3.mulVec]
  refine ⟨h, ?_⟩
  rw [h]
  intro habs
  simp only [Vector3.mk_x] at habs
  rw [show (-1 : ℝ) - 1 = -2 by norm_num] at habs
  rw [abs_neg] at habs
  rw [abs_of_nonneg (by norm_num : (0:ℝ) ≤ 2), abs_of_nonneg (by norm_num : (0:ℝ) ≤ 1)] at habs
  norm_num at habs

/-- Claim C5 (amended): `PositionTransform(p, ECEF, ECEF)` returns `p`
exactly with no arithmetic applied, and with a consistent cache
`PositionTransform(p, X, X) = p` exactly for `X ∈ {LOCAL2, GLOBAL}`.
For `X = LOCAL` the identity fails (the stage-2 rotation does not invert
LOCAL's forward rotation), and for `X = SPHERICAL` it holds only up to
the Bowring approximation error. -/
theorem positionTransform_identity (s : SphericalCoordinates) (p : Vector3)
    (x : CoordinateType) (hs : cacheConsistent s)
    (hx : x = .LOCAL2 ∨ x = .GLOBAL ∨ x = .ECEF) :
    s.PositionTransform p .ECEF .ECEF = (p, 0) ∧
    (s.PositionTransform p x x).1 = p := by
  refine ⟨rfl, ?_⟩
  have hcx : x.cartesian = true := by rcases hx with h | h | h <;> subst h <;> rfl
  rw [PT_cart s p x x hcx hcx]
  exact fromECEFCart_toECEFCart s p x hs hx

/-- Claim C5, witness: the identity evaluated at the default reference
frame for `X = LOCAL2`. -/
theorem positionTransform_identity_witness :
    scId.PositionTransform ⟨4, 5, 6⟩ .ECEF .ECEF = (⟨4, 5, 6⟩, 0) ∧
    (scId.PositionTransform ⟨4, 5, 6⟩ .LOCAL2 .LOCAL2).1 = ⟨4, 5, 6⟩ :=
  positionTransform_identity scId ⟨4, 5, 6⟩ .LOCAL2 cacheConsistent_scId
    (Or.inl rfl)

/-- Claim C5, counterexample to the original claim: at the default
reference frame, `PositionTransform((1,0,0), LOCAL, LOCAL)` returns
`(-1, 0, 0)`, not the input, and misses it by far more than a 1e-6
relative tolerance. -/
theorem positionTransform_identity_local_cex :
    (scId.PositionTransform ⟨1, 0, 0⟩ .LOCAL .LOCAL).1 = ⟨-1, 0, 0⟩ ∧
    ¬ |((scId.PositionTransform ⟨1, 0, 0⟩ .LOCAL .LOCAL).1).x - (1 : ℝ)| ≤
      1e-6 * |(1 : ℝ)| := by
  have h : (scId.PositionTransform ⟨1, 0, 0⟩ .LOCAL .LOCAL).1 = ⟨-1, 0, 0⟩ := by
    show scId.headingRotateBack (scId.rotECEFToGlobal.mulVec
      ((scId.origin + scId.rotGlobalToECEF.mulVec (scId.localRotate ⟨1, 0, 0⟩)) -
        scId.origin)) = _
    refine Vector3.ext_xyz ?_ ?_ ?_ <;>
      simp [scId, SphericalCoordinates.headingRotateBack,
        SphericalCoordinates.localRotate, Matrix3.mulVec]
  refine ⟨h, ?_⟩
  rw [h]
  intro habs
  simp only [Vector3.mk_x] at habs
  rw [show (-1 : ℝ) - 1 = -2 by norm_num] at habs
  rw [abs_neg] at habs
  rw [abs_of_nonneg (by norm_num : (0:ℝ) ≤ 2), abs_of_nonneg (by norm_num : (0:ℝ) ≤ 1)] at habs
  norm_num at habs

theorem cacheConsistent_of_fields (s t : SphericalCoordinates)
    (hs : cacheConsistent s)
    (hlat : t.latitudeReference = s.latitudeReference)
    (hlon : t.longitudeReference = s.longitudeReference)
    (helev : t.elevationReference = s.elevationReference)
    (hhead : t.headingOffset = s.headingOffset)
    (hrE : t.rotECEFToGlobal = s.rotECEFToGlobal)
    (hrG : t.rotGlobalToECEF = s.rotGlobalToECEF)
    (hcos : t.cosHea = s.cosHea) (hsin : t.sinHea = s.sinHea)
    (horig : t.origin = s.origin)
    (hA : t.ellA = s.ellA) (hB : t.ellB = s.ellB) (hE : t.ellE = s.ellE) :
    cacheConsistent t := by
  refine ⟨?_, ?_, ?_, ?_, ?_⟩
  · rw [hrE, hlat, hlon]; exact hs.1
  · rw [hrG, hlat, hlon]; exact hs.2.1
  · rw [hcos, hhead]; exact hs.2.2.1
  · rw [hsin, hhead]; exact hs.2.2.2.1
  · have h5 := hs.2.2.2.2
    rw [PT_spherical_ecef] at h5 ⊢
    simp only [Vector3.mk_x, Vector3.mk_y, Vector3.mk_z] at h5 ⊢
    rw [horig, hlat, hlon, helev, hA, hB, hE]
    exact h5

/-- Claim C3 (amended): `SetLatitudeReference`, `SetLongitudeReference`,
`SetElevationReference` and `SetHeadingOffset` each rebuild the full
transform cache before returning, so the cached matrices, heading
sine/cosine and origin equal their recomputation from the current state.
`SetSurface` does not rebuild the cache; consistency survives a
`SetSurface` call only because (and when) the call leaves the numeric
ellipsoid parameters unchanged. -/
theorem mutators_rebuild_cache :
    (∀ (s : SphericalCoordinates) (a : ℝ),
      cacheConsistent (s.SetLatitudeReference a)) ∧
    (∀ (s : SphericalCoordinates) (a : ℝ),
      cacheConsistent (s.SetLongitudeReference a)) ∧
    (∀ (s : SphericalCoordinates) (e : ℝ),
      cacheConsistent (s.SetElevationReference e)) ∧
    (∀ (s : SphericalCoordinates) (a : ℝ),
      cacheConsistent (s.SetHeadingOffset a)) ∧
    (∀ (s : SphericalCoordinates) (t : SurfaceType), cacheConsistent s →
      (s.SetSurface t).1.ellA = s.ellA → (s.SetSurface t).1.ellB = s.ellB →
      (s.SetSurface t).1.ellE = s.ellE → cacheConsistent (s.SetSurface t).1) := by
  refine ⟨fun s a => cacheConsistent_updateTransformationMatrix _,
    fun s a => cacheConsistent_updateTransformationMatrix _,
    fun s e => cacheConsistent_updateTransformationMatrix _,
    fun s a => cacheConsistent_updateTransformationMatrix _,
    fun s t hs hA hB hE => ?_⟩
  cases t
  case EARTH_WGS84 =>
    exact cacheConsistent_of_fields s _ hs rfl rfl rfl rfl rfl rfl rfl rfl rfl
      hA hB hE
  case UNRECOGNIZED n =>
    exact cacheConsistent_of_fields s _ hs rfl rfl rfl rfl rfl rfl rfl rfl rfl
      hA hB hE

/-- Claim C3, witness: a reference setter and a surface re-assignment at
the default reference frame both leave a consistent cache. -/
theorem mutators_rebuild_cache_witness :
    cacheConsistent (scId.SetLatitudeReference 0.5) ∧
    cacheConsistent ((scId.SetSurface .EARTH_WGS84).1) :=
  ⟨mutators_rebuild_cache.1 scId 0.5,
   mutators_rebuild_cache.2.2.2.2 scId .EARTH_WGS84 cacheConsistent_scId
     rfl rfl rfl⟩

/-- State with a stale cached origin, used to exhibit that `SetSurface`
performs no cache rebuild. -/
def scStale : SphericalCoordinates := { scId with origin := ⟨0, 0, 0⟩ }

/-- Claim C3, counterexample to the original claim: `SetSurface` returns
without rebuilding the transform cache — starting from a state whose
cached origin is stale, the origin is still stale (and still differs
from its recomputation) after `SetSurface(EARTH_WGS84)` returns. -/
theorem setSurface_no_rebuild_cex :
    (scStale.SetSurface .EARTH_WGS84).1.origin = scStale.origin ∧
    ¬ cacheConsistent (scStale.SetSurface .EARTH_WGS84).1 := by
  refine ⟨rfl, ?_⟩
  intro h
  have h5 := h.2.2.2.2
  rw [PT_spherical_ecef] at h5
  have hx := congrArg Vector3.x h5
  simp [scStale, scId, SphericalCoordinates.SetSurface,
    g_EarthWGS84AxisEquatorial, g_EarthWGS84AxisPolar] at hx
  norm_num at hx

end

end GzMath
